import Mathlib

/-!
# ttn-otaa-lmic: the sketch `src/main.cpp` over the LMIC library

The sketch is glue over the LMIC LoRaWAN library: an event callback `onEvent`,
a send callback `do_send`, and the helper `convertSec`.  The library itself is
an external collaborator.  The embedding keeps

* the inputs the sketch reads from the library (`LMIC.opmode`,
  `LMIC.txrxFlags`, `LMIC.dataLen`, `LMIC_getSeqnoUp()`, `os_getTime()`,
  the truth value of `Serial`), and
* the outputs the sketch hands to the library, each recorded in a field of the
  state: the job armed by `os_setTimedCallback`, the flag passed to
  `LMIC_setLinkCheckMode`, the calls of `LMIC_setTxData2`, and the operations
  sent to the serial console.

Machine integers are mathematical integers wrapped explicitly to their width
(`ostime_t` and `long` are 32-bit two's complement on the target).  The tick
counter is a component of the state: it does not advance while a handler runs.
-/

namespace TtnOtaaLmic

/-! ## Library constants and machine arithmetic -/

/-- Constants of the LMIC headers (`lmic.h`, `oslmic.h`, `config.h`) that the
sketch uses.  The headers are not part of the sketch, so the constants are
parameters of the model. -/
structure Config where
  /-- bit mask `OP_TXRXPEND` of `LMIC.opmode`: a TX/RX transaction is pending -/
  OP_TXRXPEND : Nat
  /-- bit mask `TXRX_ACK` of `LMIC.txrxFlags`: confirmed uplink was acked -/
  TXRX_ACK : Nat
  /-- number of OS ticks per second -/
  OSTICKS_PER_SEC : Nat
  /-- number of microseconds per OS tick -/
  US_PER_OSTICK : Nat
deriving DecidableEq, Repr

/-- The values of the Arduino port of LMIC: `OP_TXRXPEND = 0x0080`,
`TXRX_ACK = 0x80`, 16 microseconds per tick, 62500 ticks per second. -/
def arduinoLmic : Config :=
  { OP_TXRXPEND := 0x0080, TXRX_ACK := 0x80, OSTICKS_PER_SEC := 62500, US_PER_OSTICK := 16 }

/-- Reduction of an integer to the `bits`-bit two's complement range
`[-2^(bits-1), 2^(bits-1))`: the value a signed machine integer of that width
holds after a wrapping operation or a narrowing cast. -/
def wrapS (bits : Nat) (x : Int) : Int :=
  (x + 2 ^ (bits - 1)) % 2 ^ bits - 2 ^ (bits - 1)

/-- Conversion of an integer to a `bits`-bit unsigned machine integer. -/
def wrapU (bits : Nat) (x : Int) : Nat :=
  (x % 2 ^ bits).toNat

/-- `#define sec2osticks(sec) ((ostime_t)( (int64_t)(sec) * OSTICKS_PER_SEC))`:
a 64-bit product narrowed to the 32-bit `ostime_t`. -/
def sec2osticks (cfg : Config) (sec : Nat) : Int :=
  wrapS 32 (wrapS 64 ((sec : Int) * (cfg.OSTICKS_PER_SEC : Int)))

/-- `const unsigned TX_INTERVAL = 60;` -/
def TX_INTERVAL : Nat := 60

/-- `static uint8_t mydata[] = "Hello, world!";`: the characters of the string
literal followed by the terminating NUL byte. -/
def mydata : List Nat :=
  "Hello, world!".toList.map Char.toNat ++ [0]

/-- `unsigned long convertSec(long time) { return (time * US_PER_OSTICK) / 1000; }`
with `long` 32 bits wide: the product wraps to 32 bits, the division is the C
division (truncation toward zero), and the quotient is converted to
`unsigned long`. -/
def convertSec (cfg : Config) (time : Int) : Nat :=
  wrapU 32 ((wrapS 32 (time * (cfg.US_PER_OSTICK : Int))).tdiv 1000)

/-! ## State -/

/-- The `ev_t` event codes: the fifteen enumerators the switch of `onEvent`
names, and `other code` for a value of `ev_t` that is none of them. -/
inductive ev_t where
  | EV_SCAN_TIMEOUT | EV_BEACON_FOUND | EV_BEACON_MISSED | EV_BEACON_TRACKED
  | EV_JOINING | EV_JOINED | EV_RFU1 | EV_JOIN_FAILED | EV_REJOIN_FAILED
  | EV_TXCOMPLETE | EV_LOST_TSYNC | EV_RESET | EV_RXCOMPLETE | EV_LINK_DEAD
  | EV_LINK_ALIVE
  | other (code : Nat)
deriving DecidableEq, Repr

/-- The callbacks the sketch passes to the scheduler (`osjobcb_t`); `do_send`
is the only one. -/
inductive osjobcb_t where
  | do_send
deriving DecidableEq, Repr

/-- An armed `osjob_t`: its deadline (an `ostime_t`) and its callback. -/
structure osjob_t where
  deadline : Int
  func : osjobcb_t
deriving DecidableEq, Repr

/-- The fields of the global `LMIC` that the sketch reads. -/
structure lmic_t where
  /-- `LMIC.opmode` -/
  opmode : Nat
  /-- `LMIC.txrxFlags` -/
  txrxFlags : Nat
  /-- `LMIC.dataLen` -/
  dataLen : Nat
  /-- the value `LMIC_getSeqnoUp()` returns -/
  seqnoUp : Nat
deriving DecidableEq, Repr

/-- One call `LMIC_setTxData2(port, data, dlen, confirmed)`. -/
structure TxData2Call where
  port : Nat
  data : List Nat
  dlen : Nat
  confirmed : Nat
deriving DecidableEq, Repr

/-- The bytes a call of `LMIC_setTxData2` hands to the MAC: the first `dlen`
bytes of the buffer. -/
def TxData2Call.payload (c : TxData2Call) : List Nat :=
  c.data.take c.dlen

/-- An operation on the serial console. -/
inductive SerialOp where
  | print_num (n : Int)
  | print_str (s : String)
  | println_num (n : Int)
  | println_str (s : String)
deriving DecidableEq, Repr

/-- The state the sketch runs in. -/
structure World where
  /-- the global `LMIC` -/
  LMIC : lmic_t
  /-- the hardware tick counter -/
  ticks : Nat
  /-- the truth value of `Serial` -/
  Serial : Bool
  /-- `static osjob_t sendjob`: `none` when it is not armed -/
  sendjob : Option osjob_t
  /-- link-check validation mode of the MAC -/
  linkCheck : Bool
  /-- the calls of `LMIC_setTxData2` so far, oldest first -/
  txCalls : List TxData2Call
  /-- what was written to the serial console so far, oldest first -/
  console : List SerialOp
deriving DecidableEq, Repr

/-! ## Library calls -/

/-- `os_getTime()`: the tick counter as a 32-bit `ostime_t`. -/
def os_getTime (w : World) : Int :=
  wrapS 32 (w.ticks : Int)

/-- `os_setTimedCallback(&sendjob, time, cb)`: arms the job, replacing what was
armed before. -/
def os_setTimedCallback (time : Int) (cb : osjobcb_t) (w : World) : World :=
  { w with sendjob := some { deadline := time, func := cb } }

/-- `LMIC_setLinkCheckMode(enabled)`. -/
def LMIC_setLinkCheckMode (enabled : Nat) (w : World) : World :=
  { w with linkCheck := decide (enabled ≠ 0) }

/-- `LMIC_setTxData2(port, data, dlen, confirmed)`: the call is recorded. -/
def LMIC_setTxData2 (port : Nat) (data : List Nat) (dlen : Nat) (confirmed : Nat)
    (w : World) : World :=
  { w with txCalls := w.txCalls ++
      [{ port := port, data := data, dlen := dlen, confirmed := confirmed }] }

/-- `#define _SERIAL(op) if (Serial) { Serial.op; }` -/
def _SERIAL (op : SerialOp) (w : World) : World :=
  if w.Serial then { w with console := w.console ++ [op] } else w

/-! ## The sketch -/

/-- `void onEvent (ev_t ev)`. -/
def onEvent (cfg : Config) (ev : ev_t) (w : World) : World :=
  let w := _SERIAL (.print_num (os_getTime w)) w
  let w := _SERIAL (.print_str ": ") w
  match ev with
  | .EV_SCAN_TIMEOUT => _SERIAL (.println_str "EV_SCAN_TIMEOUT") w
  | .EV_BEACON_FOUND => _SERIAL (.println_str "EV_BEACON_FOUND") w
  | .EV_BEACON_MISSED => _SERIAL (.println_str "EV_BEACON_MISSED") w
  | .EV_BEACON_TRACKED => _SERIAL (.println_str "EV_BEACON_TRACKED") w
  | .EV_JOINING => _SERIAL (.println_str "EV_JOINING") w
  | .EV_JOINED =>
      let w := _SERIAL (.println_str "EV_JOINED") w
      LMIC_setLinkCheckMode 0 w
  | .EV_RFU1 => _SERIAL (.println_str "EV_RFU1") w
  | .EV_JOIN_FAILED => _SERIAL (.println_str "EV_JOIN_FAILED") w
  | .EV_REJOIN_FAILED => _SERIAL (.println_str "EV_REJOIN_FAILED") w
  | .EV_TXCOMPLETE =>
      let w := _SERIAL (.println_str "EV_TXCOMPLETE (includes waiting for RX windows)") w
      let w := if w.LMIC.txrxFlags &&& cfg.TXRX_ACK ≠ 0 then
          _SERIAL (.println_str "Received ack") w
        else w
      let w := if w.LMIC.dataLen ≠ 0 then
          let w := _SERIAL (.println_str "Received ") w
          let w := _SERIAL (.println_num w.LMIC.dataLen) w
          _SERIAL (.println_str " bytes of payload") w
        else w
      os_setTimedCallback (wrapS 32 (os_getTime w + sec2osticks cfg TX_INTERVAL))
        .do_send w
  | .EV_LOST_TSYNC => _SERIAL (.println_str "EV_LOST_TSYNC") w
  | .EV_RESET => _SERIAL (.println_str "EV_RESET") w
  | .EV_RXCOMPLETE => _SERIAL (.println_str "EV_RXCOMPLETE") w
  | .EV_LINK_DEAD => _SERIAL (.println_str "EV_LINK_DEAD") w
  | .EV_LINK_ALIVE => _SERIAL (.println_str "EV_LINK_ALIVE") w
  | .other _ => _SERIAL (.println_str "Unknown event") w

/-- `void do_send(osjob_t* j)`. -/
def do_send (cfg : Config) (w : World) : World :=
  let w := _SERIAL (.print_num (convertSec cfg (os_getTime w))) w
  let w := _SERIAL (.print_str ": Do Send ") w
  let w := _SERIAL (.println_num w.LMIC.seqnoUp) w
  if w.LMIC.opmode &&& cfg.OP_TXRXPEND ≠ 0 then
    _SERIAL (.println_str "OP_TXRXPEND, not sending") w
  else
    let nData := mydata.length - 1
    let w := LMIC_setTxData2 1 mydata nData 0 w
    _SERIAL (.println_str "Packet queued") w

/-- The library calls `setup` makes before its `do_send`.  Their code is not
part of the sketch, so what they do to the state is a parameter. -/
structure Startup where
  /-- `Serial.begin(9600); delay(100);` -/
  Serial_begin : World → World
  /-- `os_init(); LMIC_reset(); LMIC_setDrTxpow(DR_SF7,14); LMIC_selectSubBand(1);` -/
  LMIC_init : World → World

/-- `void setup()` (the board has no `VCC_ENABLE` pin to drive). -/
def setup (cfg : Config) (lib : Startup) (w : World) : World :=
  let w := lib.Serial_begin w
  let w := _SERIAL (.println_str "Starting") w
  let w := lib.LMIC_init w
  do_send cfg w

/-- A state to evaluate the sketch on: not joined, nothing pending, no job
armed, the console open. -/
def boot : World :=
  { LMIC := { opmode := 0, txrxFlags := 0, dataLen := 0, seqnoUp := 0 },
    ticks := 1000, Serial := true, sendjob := none, linkCheck := true,
    txCalls := [], console := [] }

/-- A state whose tick counter is one tick before the signed 32-bit overflow. -/
def nearOverflow : World :=
  { boot with ticks := 2147483647 }

/-- The effects of the sketch on the library other than console output: the
armed send job, the link-check mode, and the calls of `LMIC_setTxData2`. -/
def World.effects (w : World) : Option osjob_t × Bool × List TxData2Call :=
  (w.sendjob, w.linkCheck, w.txCalls)

/-- The payload queued in the MAC: that of the latest `LMIC_setTxData2` call. -/
def World.queuedPayload (w : World) : Option (List Nat) :=
  w.txCalls.getLast?.map TxData2Call.payload

/-- The events the sketch observes but does not act on beyond logging: the nine
auxiliary events and every code the switch does not name. -/
def ev_t.auxiliary : ev_t → Bool
  | .EV_SCAN_TIMEOUT | .EV_BEACON_FOUND | .EV_BEACON_MISSED | .EV_BEACON_TRACKED
  | .EV_RXCOMPLETE | .EV_LINK_DEAD | .EV_LINK_ALIVE | .EV_LOST_TSYNC | .EV_RESET
  | .other _ => true
  | _ => false

/-- The step from `w` to `w2` only writes to the console: `w2` is `w` with
output appended. -/
def OnlyLogs (w w2 : World) : Prop :=
  ∃ out, w2 = { w with console := w.console ++ out }

/-- Handling a sequence of events in order. -/
def onEvents (cfg : Config) (evs : List ev_t) (w : World) : World :=
  evs.foldl (fun s ev => onEvent cfg ev s) w

/-! ## Frame lemmas for the library calls -/

@[simp] theorem SERIAL_LMIC (op : SerialOp) (w : World) : (_SERIAL op w).LMIC = w.LMIC := by
  unfold _SERIAL; split <;> rfl

@[simp] theorem SERIAL_ticks (op : SerialOp) (w : World) : (_SERIAL op w).ticks = w.ticks := by
  unfold _SERIAL; split <;> rfl

@[simp] theorem SERIAL_Serial (op : SerialOp) (w : World) :
    (_SERIAL op w).Serial = w.Serial := by
  unfold _SERIAL; split <;> rfl

@[simp] theorem SERIAL_sendjob (op : SerialOp) (w : World) :
    (_SERIAL op w).sendjob = w.sendjob := by
  unfold _SERIAL; split <;> rfl

@[simp] theorem SERIAL_linkCheck (op : SerialOp) (w : World) :
    (_SERIAL op w).linkCheck = w.linkCheck := by
  unfold _SERIAL; split <;> rfl

@[simp] theorem SERIAL_txCalls (op : SerialOp) (w : World) :
    (_SERIAL op w).txCalls = w.txCalls := by
  unfold _SERIAL; split <;> rfl

@[simp] theorem SERIAL_os_getTime (op : SerialOp) (w : World) :
    os_getTime (_SERIAL op w) = os_getTime w := by
  simp [os_getTime]

theorem SERIAL_console_closed (op : SerialOp) (w : World) (h : w.Serial = false) :
    _SERIAL op w = w := by
  simp [_SERIAL, h]

theorem SERIAL_onlyLogs (op : SerialOp) (w : World) : OnlyLogs w (_SERIAL op w) := by
  unfold _SERIAL
  split
  · exact ⟨[op], rfl⟩
  · exact ⟨[], by cases w; simp⟩

theorem OnlyLogs.trans {a b c : World} (hab : OnlyLogs a b) (hbc : OnlyLogs b c) :
    OnlyLogs a c := by
  obtain ⟨o1, rfl⟩ := hab
  obtain ⟨o2, rfl⟩ := hbc
  exact ⟨o1 ++ o2, by simp [List.append_assoc]⟩

theorem SERIAL3_onlyLogs (a b c : SerialOp) (w : World) :
    OnlyLogs w (_SERIAL c (_SERIAL b (_SERIAL a w))) :=
  ((SERIAL_onlyLogs a w).trans (SERIAL_onlyLogs b _)).trans (SERIAL_onlyLogs c _)

/-- What `do_send` leaves in the call list of `LMIC_setTxData2`. -/
theorem do_send_txCalls_eq (cfg : Config) (w : World) :
    (do_send cfg w).txCalls =
      if w.LMIC.opmode &&& cfg.OP_TXRXPEND ≠ 0 then w.txCalls
      else w.txCalls ++ [{ port := 1, data := mydata, dlen := mydata.length - 1,
                            confirmed := 0 }] := by
  unfold do_send
  by_cases h : w.LMIC.opmode &&& cfg.OP_TXRXPEND = 0 <;> simp [h, LMIC_setTxData2]

theorem do_send_sendjob_eq (cfg : Config) (w : World) :
    (do_send cfg w).sendjob = w.sendjob := by
  unfold do_send
  by_cases h : w.LMIC.opmode &&& cfg.OP_TXRXPEND = 0 <;> simp [h, LMIC_setTxData2]

theorem do_send_linkCheck_eq (cfg : Config) (w : World) :
    (do_send cfg w).linkCheck = w.linkCheck := by
  unfold do_send
  by_cases h : w.LMIC.opmode &&& cfg.OP_TXRXPEND = 0 <;> simp [h, LMIC_setTxData2]

theorem onEvent_sendjob_of_ne (cfg : Config) (ev : ev_t) (w : World)
    (h : ev ≠ .EV_TXCOMPLETE) : (onEvent cfg ev w).sendjob = w.sendjob := by
  cases ev <;> first | exact absurd rfl h | simp [onEvent, LMIC_setLinkCheckMode]

theorem onEvent_txCalls_eq (cfg : Config) (ev : ev_t) (w : World) :
    (onEvent cfg ev w).txCalls = w.txCalls := by
  cases ev <;> simp [onEvent, LMIC_setLinkCheckMode, os_setTimedCallback]
  split <;> split <;> simp

theorem onEvent_txcomplete_sendjob (cfg : Config) (w : World) :
    (onEvent cfg .EV_TXCOMPLETE w).sendjob =
      some { deadline := wrapS 32 (os_getTime w + sec2osticks cfg TX_INTERVAL),
             func := .do_send } := by
  simp only [onEvent, os_setTimedCallback]
  split <;> split <;> simp

theorem onEvent_linkCheck_of_ne (cfg : Config) (ev : ev_t) (w : World)
    (h : ev ≠ .EV_JOINED) : (onEvent cfg ev w).linkCheck = w.linkCheck := by
  cases ev <;> first | exact absurd rfl h | simp [onEvent, os_setTimedCallback]
  split <;> split <;> simp

theorem onEvent_console_closed (cfg : Config) (ev : ev_t) (w : World)
    (h : w.Serial = false) : (onEvent cfg ev w).console = w.console := by
  cases ev <;>
    simp [onEvent, SERIAL_console_closed, h, LMIC_setLinkCheckMode, os_setTimedCallback]

theorem do_send_console_closed (cfg : Config) (w : World)
    (h : w.Serial = false) : (do_send cfg w).console = w.console := by
  unfold do_send
  by_cases hp : w.LMIC.opmode &&& cfg.OP_TXRXPEND = 0 <;>
    simp [hp, SERIAL_console_closed, h, LMIC_setTxData2]

theorem onEvents_sendjob_of_not_mem (cfg : Config) (evs : List ev_t) (w : World)
    (h : ev_t.EV_TXCOMPLETE ∉ evs) : (onEvents cfg evs w).sendjob = w.sendjob := by
  induction evs generalizing w with
  | nil => rfl
  | cons ev rest ih =>
    have hne : ev ≠ .EV_TXCOMPLETE := fun e => h (by simp [e])
    have hrest : ev_t.EV_TXCOMPLETE ∉ rest := fun m => h (by simp [m])
    have step := ih (onEvent cfg ev w) hrest
    simp only [onEvents, List.foldl_cons] at step ⊢
    rw [step, onEvent_sendjob_of_ne cfg ev w hne]

/-! ## Machine arithmetic lemmas -/

theorem wrapS_32 (x : Int) :
    wrapS 32 x = (x + 2147483648) % 4294967296 - 2147483648 := by
  simp [wrapS]

theorem wrapS_64 (x : Int) :
    wrapS 64 x =
      (x + 9223372036854775808) % 18446744073709551616 - 9223372036854775808 := by
  simp [wrapS]

theorem wrapU_32 (x : Int) : (wrapU 32 x : Int) = x % 4294967296 := by
  simp only [wrapU]
  norm_num
  omega

/-- The C division by 1000 in terms of the floor division. -/
theorem tdiv_1000 (x : Int) :
    x.tdiv 1000 = if 0 ≤ x then x / 1000 else -((-x) / 1000) := by
  split
  · exact Int.tdiv_eq_ediv ‹_› (by norm_num)
  · have h : x = -(-x) := by omega
    rw [h, Int.neg_tdiv, Int.tdiv_eq_ediv (by omega) (by norm_num)]
    simp

/-! ## The claims -/

/-- C1: in every state `do_send` hands a payload to the MAC exactly when the
`OP_TXRXPEND` bit of `LMIC.opmode` is clear.  With the bit set the list of
`LMIC_setTxData2` calls is unchanged (the send is skipped); with the bit clear
exactly one call is appended.  Nothing else of the state enters the decision. -/
theorem do_send_hands_payload_iff_idle (cfg : Config) (w : World) :
    (do_send cfg w).txCalls.length =
        w.txCalls.length + (if w.LMIC.opmode &&& cfg.OP_TXRXPEND ≠ 0 then 0 else 1) ∧
      (∃ added, (do_send cfg w).txCalls = w.txCalls ++ added ∧
        (added = [] ↔ w.LMIC.opmode &&& cfg.OP_TXRXPEND ≠ 0) ∧
        (added.length = 1 ↔ w.LMIC.opmode &&& cfg.OP_TXRXPEND = 0)) := by
  rw [do_send_txCalls_eq]
  by_cases h : w.LMIC.opmode &&& cfg.OP_TXRXPEND = 0
  · simp only [h, ne_eq, not_true_eq_false, if_false]
    refine ⟨by simp, _, rfl, by simp, by simp⟩
  · simp only [h, ne_eq, not_false_eq_true, if_true]
    refine ⟨by simp, [], by simp, by simp, by simp⟩

/-- C2: in every state, `onEvent(EV_TXCOMPLETE)` arms the send job with the
callback `do_send` and the deadline `os_getTime() + sec2osticks(TX_INTERVAL)`
(an `ostime_t` sum), where `TX_INTERVAL` is 60; the armed job is the same
whatever `LMIC.txrxFlags` and `LMIC.dataLen` hold. -/
theorem onEvent_txcomplete_rearms (cfg : Config) (w : World) :
    (onEvent cfg .EV_TXCOMPLETE w).sendjob =
        some { deadline := wrapS 32 (os_getTime w + sec2osticks cfg TX_INTERVAL),
               func := .do_send } ∧
      TX_INTERVAL = 60 ∧
      (wrapS 32 (os_getTime w + sec2osticks cfg TX_INTERVAL)) % 2 ^ 32 =
        (os_getTime w + sec2osticks cfg 60) % 2 ^ 32 ∧
      ∀ flags len : Nat,
        (onEvent cfg .EV_TXCOMPLETE
            { w with LMIC := { w.LMIC with txrxFlags := flags, dataLen := len } }).sendjob =
          (onEvent cfg .EV_TXCOMPLETE w).sendjob := by
  refine ⟨onEvent_txcomplete_sendjob cfg w, rfl, ?_, ?_⟩
  · simp only [wrapS, TX_INTERVAL]
    norm_num
    omega
  · intro flags len
    rw [onEvent_txcomplete_sendjob, onEvent_txcomplete_sendjob]
    rfl

/-- C4: in every state, whatever the link-check mode was, after
`onEvent(EV_JOINED)` link-check validation is disabled, and the send job is
exactly what it was. -/
theorem onEvent_joined_disables_linkCheck (cfg : Config) (w : World) :
    (onEvent cfg .EV_JOINED w).linkCheck = false ∧
      (onEvent cfg .EV_JOINED w).sendjob = w.sendjob := by
  simp [onEvent, LMIC_setLinkCheckMode]

/-- C5: for each of the nine auxiliary events and for every event code the
switch does not name, `onEvent` changes nothing but the console: the state after
is the state before with console output appended, so the send job, the
link-check mode, the queued payload and the `LMIC_setTxData2` calls are
unchanged. -/
theorem onEvent_auxiliary_only_logs (cfg : Config) (ev : ev_t) (w : World)
    (haux : ev.auxiliary = true) :
    OnlyLogs w (onEvent cfg ev w) ∧
      (onEvent cfg ev w).sendjob = w.sendjob ∧
      (onEvent cfg ev w).linkCheck = w.linkCheck ∧
      (onEvent cfg ev w).queuedPayload = w.queuedPayload ∧
      (onEvent cfg ev w).txCalls = w.txCalls := by
  have hframe : OnlyLogs w (onEvent cfg ev w) := by
    cases ev <;> simp [ev_t.auxiliary] at haux <;> exact SERIAL3_onlyLogs _ _ _ w
  obtain ⟨out, hout⟩ := hframe
  refine ⟨⟨out, hout⟩, ?_, ?_, ?_, ?_⟩ <;> simp only [hout, World.queuedPayload]

/-- C5 at a concrete input: `EV_RXCOMPLETE` in the state `boot`. -/
theorem onEvent_auxiliary_only_logs_witness :
    OnlyLogs boot (onEvent arduinoLmic .EV_RXCOMPLETE boot) ∧
      (onEvent arduinoLmic .EV_RXCOMPLETE boot).sendjob = boot.sendjob ∧
      (onEvent arduinoLmic .EV_RXCOMPLETE boot).linkCheck = boot.linkCheck ∧
      (onEvent arduinoLmic .EV_RXCOMPLETE boot).queuedPayload = boot.queuedPayload ∧
      (onEvent arduinoLmic .EV_RXCOMPLETE boot).txCalls = boot.txCalls :=
  onEvent_auxiliary_only_logs arduinoLmic .EV_RXCOMPLETE boot (by decide)

/-- C6: the console being unavailable changes no effect other than the output.
For every event and state, `onEvent` run with `Serial` false has the same armed
job, link-check mode and `LMIC_setTxData2` calls as run with `Serial` true, and
writes nothing; likewise `do_send`. -/
theorem serial_absence_preserves_effects (cfg : Config) (ev : ev_t) (w : World) :
    (onEvent cfg ev { w with Serial := false }).effects =
        (onEvent cfg ev { w with Serial := true }).effects ∧
      (do_send cfg { w with Serial := false }).effects =
        (do_send cfg { w with Serial := true }).effects ∧
      (onEvent cfg ev { w with Serial := false }).console = w.console ∧
      (do_send cfg { w with Serial := false }).console = w.console := by
  refine ⟨?_, ?_, onEvent_console_closed cfg ev _ rfl, do_send_console_closed cfg _ rfl⟩
  · simp only [World.effects, onEvent_txCalls_eq]
    by_cases ht : ev = .EV_TXCOMPLETE
    · subst ht
      rw [onEvent_txcomplete_sendjob, onEvent_txcomplete_sendjob,
        onEvent_linkCheck_of_ne _ _ _ (by decide), onEvent_linkCheck_of_ne _ _ _ (by decide)]
      rfl
    · rw [onEvent_sendjob_of_ne _ _ _ ht, onEvent_sendjob_of_ne _ _ _ ht]
      by_cases hj : ev = .EV_JOINED
      · subst hj
        simp [onEvent, LMIC_setLinkCheckMode]
      · rw [onEvent_linkCheck_of_ne _ _ _ hj, onEvent_linkCheck_of_ne _ _ _ hj]
  · simp only [World.effects, do_send_sendjob_eq, do_send_linkCheck_eq, do_send_txCalls_eq]

/-- C7: whenever `do_send` queues a packet (`OP_TXRXPEND` clear), the one call
it appends hands the MAC exactly the 13 bytes of "Hello, world!" (the buffer
without its terminating NUL), on port 1, unconfirmed. -/
theorem do_send_payload_hello_world (cfg : Config) (w : World)
    (hidle : w.LMIC.opmode &&& cfg.OP_TXRXPEND = 0) :
    ∃ call, (do_send cfg w).txCalls = w.txCalls ++ [call] ∧
      call.payload = "Hello, world!".toList.map Char.toNat ∧
      call.payload = [72, 101, 108, 108, 111, 44, 32, 119, 111, 114, 108, 100, 33] ∧
      call.payload.length = 13 ∧ call.dlen = 13 ∧ call.dlen = mydata.length - 1 ∧
      call.data = call.payload ++ [0] ∧
      call.port = 1 ∧ call.confirmed = 0 := by
  refine ⟨{ port := 1, data := mydata, dlen := mydata.length - 1, confirmed := 0 }, ?_, ?_⟩
  · rw [do_send_txCalls_eq]
    simp [hidle]
  · decide

/-- C7 at a concrete input: the state `boot`, where nothing is pending. -/
theorem do_send_payload_hello_world_witness :
    ∃ call, (do_send arduinoLmic boot).txCalls = boot.txCalls ++ [call] ∧
      call.payload = "Hello, world!".toList.map Char.toNat ∧
      call.payload = [72, 101, 108, 108, 111, 44, 32, 119, 111, 114, 108, 100, 33] ∧
      call.payload.length = 13 ∧ call.dlen = 13 ∧ call.dlen = mydata.length - 1 ∧
      call.data = call.payload ++ [0] ∧
      call.port = 1 ∧ call.confirmed = 0 :=
  do_send_payload_hello_world arduinoLmic boot (by decide)

/-- C8: `do_send` leaves the send job exactly as it was in both of its
branches; `onEvent` leaves it as it was for every event other than
`EV_TXCOMPLETE`, and arms it with `do_send` on `EV_TXCOMPLETE`; `setup` leaves
it as the library initialisation left it.  In particular,
when `do_send` starts with no job armed and skips the send because
`OP_TXRXPEND` is set, no job is armed afterwards and nothing is handed to the
MAC, and the job stays unarmed through every sequence of events without an
`EV_TXCOMPLETE`. -/
theorem send_job_armed_only_by_txcomplete (cfg : Config) (w : World) :
    (do_send cfg w).sendjob = w.sendjob ∧
      (∀ ev, ev ≠ .EV_TXCOMPLETE → (onEvent cfg ev w).sendjob = w.sendjob) ∧
      (∃ job, (onEvent cfg .EV_TXCOMPLETE w).sendjob = some job ∧ job.func = .do_send) ∧
      (∀ lib : Startup, (setup cfg lib w).sendjob =
        (lib.LMIC_init (_SERIAL (.println_str "Starting") (lib.Serial_begin w))).sendjob) ∧
      (w.sendjob = none → w.LMIC.opmode &&& cfg.OP_TXRXPEND ≠ 0 →
        (do_send cfg w).sendjob = none ∧ (do_send cfg w).txCalls = w.txCalls ∧
        ∀ evs, ev_t.EV_TXCOMPLETE ∉ evs →
          (onEvents cfg evs (do_send cfg w)).sendjob = none) := by
  refine ⟨do_send_sendjob_eq cfg w, fun ev h => onEvent_sendjob_of_ne cfg ev w h,
    ⟨_, onEvent_txcomplete_sendjob cfg w, rfl⟩,
    fun lib => do_send_sendjob_eq cfg _, ?_⟩
  intro hnone hpend
  refine ⟨by rw [do_send_sendjob_eq, hnone], ?_, ?_⟩
  · rw [do_send_txCalls_eq]
    simp [hpend]
  · intro evs hevs
    rw [onEvents_sendjob_of_not_mem cfg evs _ hevs, do_send_sendjob_eq, hnone]

/-- C8 at a concrete input: a state with a transaction pending and no job
armed; the skipped send leaves no job armed, also after three further events. -/
theorem send_job_armed_only_by_txcomplete_witness :
    (do_send arduinoLmic { boot with LMIC := { boot.LMIC with opmode := 0x80 } }).sendjob = none ∧
      (onEvents arduinoLmic [.EV_JOINING, .EV_JOINED, .EV_LINK_ALIVE]
        (do_send arduinoLmic
          { boot with LMIC := { boot.LMIC with opmode := 0x80 } })).sendjob = none :=
  have h := (send_job_armed_only_by_txcomplete arduinoLmic
    { boot with LMIC := { boot.LMIC with opmode := 0x80 } }).2.2.2.2 rfl (by decide)
  ⟨h.1, h.2.2 _ (by decide)⟩

/-- C9: the re-arm time of `EV_TXCOMPLETE` wraps safely.  For every tick value
`os_getTime()` returns and every `OSTICKS_PER_SEC` with
`0 < 60 * OSTICKS_PER_SEC < 2^31` (the range 10000..64516 the library permits
lies inside), the armed deadline is `now + sec2osticks(60)` modulo `2^32`, the
wrapped signed difference `deadline - now` is `sec2osticks(60)`, which is
`60 * OSTICKS_PER_SEC`, strictly positive and below `2^31`; and at every time
less than that many ticks after `now` the wrapped signed difference to the
deadline is still positive, so the job is not due early. -/
theorem txcomplete_rearm_wraps_safely (cfg : Config) (w : World)
    (hpos : 0 < cfg.OSTICKS_PER_SEC) (hmax : 60 * cfg.OSTICKS_PER_SEC < 2 ^ 31) :
    (onEvent cfg .EV_TXCOMPLETE w).sendjob =
        some { deadline := wrapS 32 (os_getTime w + sec2osticks cfg TX_INTERVAL),
               func := .do_send } ∧
      wrapS 32 (os_getTime w + sec2osticks cfg TX_INTERVAL) % 2 ^ 32 =
        (os_getTime w + sec2osticks cfg 60) % 2 ^ 32 ∧
      wrapS 32 (wrapS 32 (os_getTime w + sec2osticks cfg TX_INTERVAL) - os_getTime w) =
        sec2osticks cfg 60 ∧
      sec2osticks cfg 60 = 60 * (cfg.OSTICKS_PER_SEC : Int) ∧
      0 < sec2osticks cfg 60 ∧ sec2osticks cfg 60 < 2 ^ 31 ∧
      ∀ elapsed : Int, 0 ≤ elapsed → elapsed < sec2osticks cfg 60 →
        0 < wrapS 32 (wrapS 32 (os_getTime w + sec2osticks cfg TX_INTERVAL) -
              wrapS 32 (os_getTime w + elapsed)) := by
  have hs : sec2osticks cfg 60 = 60 * (cfg.OSTICKS_PER_SEC : Int) := by
    simp only [sec2osticks, wrapS_32, wrapS_64]
    norm_num at hmax ⊢
    omega
  norm_num at hmax
  refine ⟨onEvent_txcomplete_sendjob cfg w, ?_, ?_, hs, ?_, ?_, ?_⟩
  · simp only [TX_INTERVAL, wrapS_32]
    norm_num
    omega
  · simp only [TX_INTERVAL, hs, wrapS_32]
    omega
  · rw [hs]; omega
  · rw [hs]; norm_num; omega
  · intro elapsed h0 h1
    simp only [TX_INTERVAL, hs, wrapS_32] at h1 ⊢
    omega

/-- C9 at a concrete input: the Arduino configuration (62500 ticks per second)
and the state `nearOverflow`, where adding the interval overflows. -/
theorem txcomplete_rearm_wraps_safely_witness :
    (os_getTime nearOverflow = 2147483647 ∧
      (onEvent arduinoLmic .EV_TXCOMPLETE nearOverflow).sendjob =
        some { deadline := -2143733649, func := .do_send }) ∧
      wrapS 32 (wrapS 32 (os_getTime nearOverflow + sec2osticks arduinoLmic TX_INTERVAL) -
          os_getTime nearOverflow) = sec2osticks arduinoLmic 60 ∧
      sec2osticks arduinoLmic 60 = 3750000 :=
  have h := txcomplete_rearm_wraps_safely arduinoLmic nearOverflow (by decide) (by decide)
  ⟨⟨by decide, by decide⟩, h.2.2.1, h.2.2.2.1⟩

/-- C10: `convertSec(time)` is `floor(time * US_PER_OSTICK / 1000)`, a number
of milliseconds, whenever `0 <= time * US_PER_OSTICK < 2^31`.  When the product
reaches `2^31` (with `time` a 32-bit `long` and `US_PER_OSTICK` at most 1000)
the 32-bit product overflows and the result differs from that quotient; with
`US_PER_OSTICK = 16` this is so for every `time` from `2^27` on. -/
theorem convertSec_milliseconds_until_overflow (cfg : Config) (time : Int) :
    (0 ≤ time * cfg.US_PER_OSTICK → time * cfg.US_PER_OSTICK < 2 ^ 31 →
        (convertSec cfg time : Int) = time * cfg.US_PER_OSTICK / 1000) ∧
      (time < 2 ^ 31 → cfg.US_PER_OSTICK ≤ 1000 → 2 ^ 31 ≤ time * cfg.US_PER_OSTICK →
        (convertSec cfg time : Int) ≠ time * cfg.US_PER_OSTICK / 1000) ∧
      (cfg.US_PER_OSTICK = 16 → 2 ^ 27 ≤ time → time < 2 ^ 31 →
        (convertSec cfg time : Int) ≠ time * 16 / 1000) := by
  have hover : time < 2 ^ 31 → cfg.US_PER_OSTICK ≤ 1000 →
      2 ^ 31 ≤ time * cfg.US_PER_OSTICK →
      (convertSec cfg time : Int) ≠ time * cfg.US_PER_OSTICK / 1000 := by
    intro hhi hU h1
    rw [convertSec, wrapU_32, tdiv_1000, wrapS_32]
    have hP : time * (cfg.US_PER_OSTICK : Int) < 2147483648 * 1000 := by
      norm_num at hhi h1
      have hU2 : (cfg.US_PER_OSTICK : Int) ≤ 1000 := by exact_mod_cast hU
      have hU0 : (0 : Int) ≤ cfg.US_PER_OSTICK := by positivity
      nlinarith
    generalize time * (cfg.US_PER_OSTICK : Int) = P at *
    norm_num at h1
    split <;> omega
  refine ⟨?_, hover, ?_⟩
  · intro h0 h1
    rw [convertSec, wrapU_32, tdiv_1000, wrapS_32]
    generalize time * (cfg.US_PER_OSTICK : Int) = P at *
    norm_num at h1
    split <;> omega
  · intro hU hlo hhi
    have h16 : (cfg.US_PER_OSTICK : Int) = 16 := by exact_mod_cast hU
    have hov := hover hhi (by omega) (by rw [h16]; norm_num at hlo ⊢; omega)
    rwa [h16] at hov

/-- C10 at concrete inputs with 16 microseconds per tick: one second of ticks
gives 1000, and `2^27` ticks give a value that is not the quotient 2147483. -/
theorem convertSec_milliseconds_until_overflow_witness :
    (convertSec arduinoLmic 62500 : Int) = 62500 * 16 / 1000 ∧
      (convertSec arduinoLmic 62500 : Int) = 1000 ∧
      (convertSec arduinoLmic 134217728 : Int) ≠ 134217728 * 16 / 1000 ∧
      convertSec arduinoLmic 134217728 = 4292819813 :=
  ⟨(convertSec_milliseconds_until_overflow arduinoLmic 62500).1 (by decide) (by decide),
    by decide,
    (convertSec_milliseconds_until_overflow arduinoLmic 134217728).2.2 rfl
      (by decide) (by decide),
    by decide⟩

/-- C3 as stated fails: in the state `boot`, where no job is armed, no job is
armed after `onEvent(EV_JOIN_FAILED)` nor after `onEvent(EV_REJOIN_FAILED)`. -/
theorem join_failure_arms_no_job :
    boot.sendjob = none ∧
      (onEvent arduinoLmic .EV_JOIN_FAILED boot).sendjob = none ∧
      (onEvent arduinoLmic .EV_REJOIN_FAILED boot).sendjob = none ∧
      ¬ ∃ job, (onEvent arduinoLmic .EV_JOIN_FAILED boot).sendjob = some job := by
  have hnone : (onEvent arduinoLmic .EV_JOIN_FAILED boot).sendjob = none := by decide
  refine ⟨rfl, hnone, by decide, ?_⟩
  rintro ⟨job, hjob⟩
  rw [hnone] at hjob
  cases hjob

/-- C3 amended: on `EV_JOIN_FAILED` and on `EV_REJOIN_FAILED`, `onEvent` only
writes to the console; the send job is exactly what it was (no job is armed or
re-timed), and nothing is handed to the MAC. -/
theorem join_failure_only_logs (cfg : Config) (ev : ev_t) (w : World)
    (hfail : ev = .EV_JOIN_FAILED ∨ ev = .EV_REJOIN_FAILED) :
    OnlyLogs w (onEvent cfg ev w) ∧
      (onEvent cfg ev w).sendjob = w.sendjob ∧
      (onEvent cfg ev w).txCalls = w.txCalls := by
  refine ⟨?_, ?_, onEvent_txCalls_eq cfg ev w⟩
  · rcases hfail with rfl | rfl <;> exact SERIAL3_onlyLogs _ _ _ w
  · rcases hfail with rfl | rfl <;> exact onEvent_sendjob_of_ne _ _ _ (by decide)

/-- C3 amended, at a concrete input: `EV_JOIN_FAILED` in the state `boot`. -/
theorem join_failure_only_logs_witness :
    OnlyLogs boot (onEvent arduinoLmic .EV_JOIN_FAILED boot) ∧
      (onEvent arduinoLmic .EV_JOIN_FAILED boot).sendjob = boot.sendjob ∧
      (onEvent arduinoLmic .EV_JOIN_FAILED boot).txCalls = boot.txCalls :=
  join_failure_only_logs arduinoLmic .EV_JOIN_FAILED boot (Or.inl rfl)

end TtnOtaaLmic
